import Mathlib

/-!
Shallow embedding of the LoanONE monitoring hooks
`src/hooks/useSpeechToText.tsx` and `src/hooks/useCamera.tsx`.

The hooks are event-driven React code.  We embed the pieces of React state
each handler reads and writes as explicit state records, each handler as a
pure state transformer, and every externally observable effect (engine
start/stop, toast notifications, caller callbacks) as an element of an
explicit action list.  Event-loop timing (the `setTimeout` /
`requestAnimationFrame` chain of `useCamera`) is embedded as a small-step
scheduler over the pending-timer flags.
-/

namespace LoanOne

/-- One entry of `event.results` of the speech engine: the alternatives
(the hook only ever reads alternative 0) and the finality flag
(never read by the hook). -/
structure RecResult where
  alts : List String
  final : Bool
deriving DecidableEq

/-- A `SpeechRecognitionEvent` as read by `recognitionInstance.onresult`:
`resultIndex` and the `results` collection. -/
structure ResultEvent where
  resultIndex : Nat
  results : List RecResult
deriving DecidableEq

/-- The React state of `useSpeechToText`: `transcript`, `isListening`,
`hasSupport`, and whether a recognition instance has been created
(`recognition !== null`). -/
structure SpeechState where
  transcript : String
  isListening : Bool
  hasSupport : Bool
  recognitionSet : Bool
deriving DecidableEq

/-- Externally observable effects of `useSpeechToText`: calls into the
recognition engine, toast notifications, and the optional
`onTranscriptChange` callback. -/
inductive SpeechAction where
  | engineStart
  | engineStop
  | toastInfo (msg : String)
  | toastError (msg : String)
  | toastSuccess (msg : String)
  | transcriptCallback (text : String)
deriving DecidableEq

/-- `event.results[event.resultIndex][0].transcript` as read in
`recognitionInstance.onresult` (out-of-range access, which the engine
never produces, is totalised to the empty string). -/
def extractText (e : ResultEvent) : String :=
  ((e.results.getD e.resultIndex ⟨[], false⟩).alts.getD 0 "")

/-- `recognitionInstance.onresult`: sets `transcript` to the text of the
result at `resultIndex` (alternative 0) and forwards it to the
`onTranscriptChange` callback.  Nothing is appended: the previous
transcript value is discarded. -/
def onresult (s : SpeechState) (e : ResultEvent) : SpeechState × List SpeechAction :=
  ({ s with transcript := extractText e },
   [SpeechAction.transcriptCallback (extractText e)])

/-- `recognitionInstance.onerror`: logs, sets `isListening` to false and
shows an error toast.  No retry is scheduled, no backoff timer exists and
the error kind is never inspected. -/
def onerror (s : SpeechState) (_err : String) : SpeechState × List SpeechAction :=
  ({ s with isListening := false },
   [SpeechAction.toastError "Speech recognition failed. Please try again."])

/-- `recognitionInstance.onend`: sets `isListening` to false. -/
def onend (s : SpeechState) : SpeechState × List SpeechAction :=
  ({ s with isListening := false }, [])

/-- `startListening` (success path of the `try` block): if a recognition
instance exists and we are not already listening, start the engine, set
`isListening` and toast; otherwise, if unsupported, toast an error. -/
def startListening (s : SpeechState) : SpeechState × List SpeechAction :=
  if s.recognitionSet && !s.isListening then
    ({ s with isListening := true },
     [SpeechAction.engineStart, SpeechAction.toastInfo "Listening..."])
  else if !s.hasSupport then
    (s, [SpeechAction.toastError "Speech recognition is not supported in your browser."])
  else
    (s, [])

/-- `stopListening`: if listening, stop the engine, clear `isListening`
and toast.  The transcript is not touched. -/
def stopListening (s : SpeechState) : SpeechState × List SpeechAction :=
  if s.recognitionSet && s.isListening then
    ({ s with isListening := false },
     [SpeechAction.engineStop, SpeechAction.toastSuccess "Speech recognition stopped."])
  else
    (s, [])

/-- `resetTranscript`: clears the transcript to the empty string and
forwards the empty string to the callback.  `isListening` is not
touched. -/
def resetTranscript (s : SpeechState) : SpeechState × List SpeechAction :=
  ({ s with transcript := "" }, [SpeechAction.transcriptCallback ""])

/-- An event delivered by the speech engine to the hook's handlers. -/
inductive EngineEvent where
  | error (err : String)
  | ended
  | result (e : ResultEvent)
deriving DecidableEq

/-- Dispatch one engine event to the corresponding handler of
`useSpeechToText`. -/
def handleEvent (s : SpeechState) : EngineEvent → SpeechState × List SpeechAction
  | EngineEvent.error err => onerror s err
  | EngineEvent.ended => onend s
  | EngineEvent.result e => onresult s e

/-- Run a sequence of engine events through the handlers, accumulating the
emitted actions in order. -/
def runEngine (s : SpeechState) : List EngineEvent → SpeechState × List SpeechAction
  | [] => (s, [])
  | ev :: evs =>
      ((runEngine (handleEvent s ev).1 evs).1,
       (handleEvent s ev).2 ++ (runEngine (handleEvent s ev).1 evs).2)

/-- Number of automatic engine restarts (`recognition.start()` calls) in an
action list: each one would be a retry when emitted by an event handler. -/
def countRetryActions : List SpeechAction → Nat
  | [] => 0
  | SpeechAction.engineStart :: rest => countRetryActions rest + 1
  | _ :: rest => countRetryActions rest

/-- Run a sequence of result events through `onresult` only, tracking the
state (the `transcript` evolution). -/
def runResults (s : SpeechState) : List ResultEvent → SpeechState
  | [] => s
  | e :: es => runResults (onresult s e).1 es

/-- Modelled from the spec wording of the transcript claim, not from the
code: one arriving result `(text, final)` folded over the pair
(finalised prefix, current interim text).  A final result is appended to
the finalised prefix and clears the interim buffer; an interim result
overwrites the interim buffer. -/
def specStep : String × String → String × Bool → String × String
  | (fin, _itm), (t, true) => (fin ++ t, "")
  | (fin, _itm), (t, false) => (fin, t)

/-- The arrival a result event contributes: the text at `resultIndex`
(alternative 0) together with that result entry's finality flag. -/
def arrivalOf (e : ResultEvent) : String × Bool :=
  (extractText e, (e.results.getD e.resultIndex ⟨[], false⟩).final)

/-- Modelled from the spec wording of the transcript claim: the exposed
transcript as the concatenation, in arrival order, of all results since
the last reset, with interim results overwriting the previous interim
result of the current utterance. -/
def specTranscript (events : List ResultEvent) : String :=
  ((events.map arrivalOf).foldl specStep ("", "")).1
    ++ ((events.map arrivalOf).foldl specStep ("", "")).2

/-- The React/ref state of `useCamera`.  `stream` is `streamRef.current`:
`some ts` holds the stopped-flags of the stream's media tracks
(`true` = the track has been stopped).  `released` is a ghost record of
tracks that left `streamRef` (with their stop flags), so that the fate of
hardware tracks stays observable after the handle is dropped.
`pipElement` models `document.pictureInPictureElement` being non-null. -/
structure CameraState where
  stream : Option (List Bool)
  released : List Bool
  videoPresent : Bool
  videoSrcSet : Bool
  canvasPresent : Bool
  ctxAvailable : Bool
  videoWidth : Nat
  videoHeight : Nat
  canvasWidth : Nat
  canvasHeight : Nat
  videoReady : Nat
  frameProc : Option Nat
  isStreaming : Bool
  hasPermission : Option Bool
  pipElement : Bool
  isPiPActive : Bool
  faceCount : Nat
  multipleFacesDetected : Bool
deriving DecidableEq

/-- `streamRef.current.getTracks().forEach(track => track.stop());
streamRef.current = null;` guarded by `if (streamRef.current)`. -/
def stopTracks (s : CameraState) : CameraState :=
  match s.stream with
  | some ts =>
      { s with stream := none, released := s.released ++ ts.map (fun _ => true) }
  | none => s

/-- `stopCamera`: stop and drop the held stream, clear the video element's
`srcObject`, cancel the stored animation-frame handle, clear
`isStreaming`, exit picture-in-picture if a PiP element exists, and reset
the PiP flag and the face readouts. -/
def stopCamera (s : CameraState) : CameraState :=
  let s1 := stopTracks s
  let s2 := if s1.videoPresent then { s1 with videoSrcSet := false } else s1
  let s3 := { s2 with frameProc := none, isStreaming := false }
  let s4 := if s3.pipElement then { s3 with pipElement := false } else s3
  { s4 with isPiPActive := false, faceCount := 0, multipleFacesDetected := false }

/-- The camera-session components of the state: the stream handle,
streaming flag, PiP element and flag, face readouts and the stored
animation-frame handle. -/
def sessionView (s : CameraState) :
    Option (List Bool) × Bool × Bool × Bool × Nat × Bool × Option Nat :=
  (s.stream, s.isStreaming, s.pipElement, s.isPiPActive, s.faceCount,
   s.multipleFacesDetected, s.frameProc)

/-- `capturePhoto`: returns `null` when the video or canvas reference is
unavailable, when not streaming, or when no 2d context is available;
otherwise it resizes the canvas to the video dimensions, draws the frame
and returns the data URL (embedded as the captured dimensions).  The
function is total: no path throws. -/
def capturePhoto (s : CameraState) : Option (Nat × Nat) × CameraState :=
  if !s.videoPresent || !s.canvasPresent || !s.isStreaming then
    (none, s)
  else if !s.ctxAvailable then
    (none, s)
  else
    (some (s.videoWidth, s.videoHeight),
     { s with canvasWidth := s.videoWidth, canvasHeight := s.videoHeight })

/-- `togglePiP` (success path of the `try` block): enter PiP when not
active and the video is ready, otherwise exit PiP when a PiP element
exists; in all other cases do nothing. -/
def togglePiP (s : CameraState) : CameraState :=
  if !s.videoPresent then s
  else if !s.isPiPActive && decide (2 ≤ s.videoReady) then
    { s with pipElement := true, isPiPActive := true }
  else if s.pipElement then
    { s with pipElement := false, isPiPActive := false }
  else s

/-- An external picture-in-picture exit by the host environment:
`document.pictureInPictureElement` becomes null.  `useCamera` registers no
`leavepictureinpicture` (or any other) listener, so no hook code runs;
the only state change is the host clearing the PiP element. -/
def externalPiPExit (s : CameraState) : CameraState :=
  { s with pipElement := false }

/-- Outcome of one face-detection attempt inside `processFrame`:
`ok count` when `faceDetectorRef.current.detect(canvas)` resolves with
`count` faces, `fail` when it rejects (the `catch` branch). -/
inductive Detection where
  | ok (count : Nat)
  | fail
deriving DecidableEq

/-- The face readouts of `useCamera` touched by a detection tick. -/
structure FaceState where
  faceCount : Nat
  multipleFacesDetected : Bool
deriving DecidableEq

/-- The observation `processFrame` delivers to the `onFaceDetection`
callback: `count` and `multiple = count > 1`. -/
structure FaceEmission where
  count : Nat
  multiple : Bool
deriving DecidableEq

/-- One detection tick of `processFrame`: on success, set `faceCount` and
`multipleFacesDetected := count > 1` and emit the observation to the
caller; on failure, the error is caught and logged — no state is written
and nothing is emitted. -/
def faceTick (s : FaceState) : Detection → FaceState × List FaceEmission
  | Detection.ok c => (⟨c, decide (1 < c)⟩, [⟨c, decide (1 < c)⟩])
  | Detection.fail => (s, [])

/-- Run a timestamped sequence of detection ticks, tagging each emitted
observation with its tick's timestamp (milliseconds). -/
def runFace (s : FaceState) : List (Nat × Detection) → FaceState × List (Nat × FaceEmission)
  | [] => (s, [])
  | td :: rest =>
      ((runFace (faceTick s td.2).1 rest).1,
       ((faceTick s td.2).2.map (fun e => (td.1, e)))
         ++ (runFace (faceTick s td.2).1 rest).2)

/-- Timestamps of the emitted observations that report more than one
face — the caller-facing multi-face warnings. -/
def warningTimes (out : List (Nat × FaceEmission)) : List Nat :=
  (out.filter (fun p => p.2.multiple)).map (fun p => p.1)

/-- Modelled from the spec wording of the debounce claim: warnings fire at
most once per window `w` when consecutive warning timestamps (in arrival
order) are at least `w` milliseconds apart. -/
def debouncedB (w : Nat) : List Nat → Bool
  | [] => true
  | [_] => true
  | a :: b :: rest => decide (a + w ≤ b) && debouncedB w (b :: rest)

/-- Whether a timestamped tick is a successful detection of more than one
face. -/
def isMultiTick : Nat × Detection → Bool
  | (_, Detection.ok c) => decide (1 < c)
  | (_, Detection.fail) => false

/-- Scheduler state of the `setTimeout` / `requestAnimationFrame` chain of
`processCameraFrames`.  `rafPending` is true when the animation-frame
handle stored in `frameProcessorRef` has not yet fired; `timeoutPending`
is true while the inter-tick `setTimeout` (whose id the code discards) is
pending.  `stopReturned`, `ticksRun`, `ticksAfterStop` and
`framesProcessed` are ghost observers: `ticksRun` counts `processFrame`
invocations, `framesProcessed` the executions of its guarded body. -/
structure LoopState where
  timeoutPending : Bool
  rafPending : Bool
  isStreaming : Bool
  stopReturned : Bool
  ticksRun : Nat
  ticksAfterStop : Nat
  framesProcessed : Nat
deriving DecidableEq

/-- Events of the frame-loop scheduler: the pending animation frame fires,
the pending timeout fires, or `stopCamera` is called. -/
inductive LoopEvent where
  | rafFires
  | timeoutFires
  | stopCameraCall
deriving DecidableEq

/-- One scheduler step.  A firing animation frame runs `processFrame`: the
guarded body executes only while `isStreaming`, and the tail of
`processFrame` unconditionally starts a new `setTimeout`.  A firing
timeout requests a new animation frame (storing its handle).
`stopCamera` cancels the stored animation-frame handle — a no-op when
that handle already fired — and clears `isStreaming`; the pending
timeout's id was never stored, so it cannot be and is not cancelled. -/
def loopStep (s : LoopState) : LoopEvent → LoopState
  | LoopEvent.rafFires =>
      if s.rafPending then
        let s1 := { s with
          rafPending := false,
          ticksRun := s.ticksRun + 1,
          ticksAfterStop :=
            if s.stopReturned then s.ticksAfterStop + 1 else s.ticksAfterStop }
        let s2 :=
          if s1.isStreaming then
            { s1 with framesProcessed := s1.framesProcessed + 1 }
          else s1
        { s2 with timeoutPending := true }
      else s
  | LoopEvent.timeoutFires =>
      if s.timeoutPending then
        { s with timeoutPending := false, rafPending := true }
      else s
  | LoopEvent.stopCameraCall =>
      { s with rafPending := false, isStreaming := false, stopReturned := true }

/-- Run a sequence of scheduler events. -/
def runLoop (s : LoopState) : List LoopEvent → LoopState
  | [] => s
  | e :: es => runLoop (loopStep s e) es

/-- The loop state right after `processCameraFrames` has requested the
first animation frame while streaming. -/
def loopInit : LoopState :=
  { timeoutPending := false, rafPending := true, isStreaming := true,
    stopReturned := false, ticksRun := 0, ticksAfterStop := 0,
    framesProcessed := 0 }

/-- A camera state with an acquired one-track stream and active
picture-in-picture. -/
def pipActiveState : CameraState :=
  { stream := some [false], released := [], videoPresent := true,
    videoSrcSet := true, canvasPresent := true, ctxAvailable := true,
    videoWidth := 640, videoHeight := 480, canvasWidth := 640,
    canvasHeight := 480, videoReady := 4, frameProc := some 1,
    isStreaming := true, hasPermission := some true, pipElement := true,
    isPiPActive := true, faceCount := 1, multipleFacesDetected := false }

/-- A camera state with an acquired two-track stream and no
picture-in-picture. -/
def acquiredState : CameraState :=
  { stream := some [false, false], released := [], videoPresent := true,
    videoSrcSet := true, canvasPresent := true, ctxAvailable := true,
    videoWidth := 640, videoHeight := 480, canvasWidth := 640,
    canvasHeight := 480, videoReady := 4, frameProc := some 2,
    isStreaming := true, hasPermission := some true, pipElement := false,
    isPiPActive := false, faceCount := 1, multipleFacesDetected := false }

/-- A camera state before any stream acquisition. -/
def idleState : CameraState :=
  { stream := none, released := [], videoPresent := true,
    videoSrcSet := false, canvasPresent := true, ctxAvailable := true,
    videoWidth := 0, videoHeight := 0, canvasWidth := 0, canvasHeight := 0,
    videoReady := 0, frameProc := none, isStreaming := false,
    hasPermission := none, pipElement := false, isPiPActive := false,
    faceCount := 0, multipleFacesDetected := false }

/-- Emitting a toast or callback action contributes no retry. -/
theorem countRetryActions_append (l1 l2 : List SpeechAction) :
    countRetryActions (l1 ++ l2) = countRetryActions l1 + countRetryActions l2 := by
  induction l1 with
  | nil => simp [countRetryActions]
  | cons a rest ih =>
      cases a
      all_goals simp [countRetryActions, ih]
      all_goals omega

/-- Claim C1 counterexample: starting from a listening session, three
consecutive transient (network) speech errors cause the handlers to issue
zero automatic engine restarts — not the three retries the claim
states. -/
theorem speech_three_errors_zero_retries :
    countRetryActions (runEngine ⟨"", true, true, true⟩
      [EngineEvent.error "network", EngineEvent.error "network",
       EngineEvent.error "network"]).2 ≠ 3 := by
  decide

/-- Claim C1 (amended): `useSpeechToText` implements no retry at all: over
any sequence of consecutive recognition errors the handlers issue zero
automatic engine restarts and leave the transcript unchanged, and every
single error (transient or not) immediately clears `isListening` and
reports the failure to the caller as an error toast. -/
theorem speech_error_no_retry (s : SpeechState) (errs : List String) (err : String) :
    countRetryActions (runEngine s (errs.map EngineEvent.error)).2 = 0 ∧
    (runEngine s (errs.map EngineEvent.error)).1.transcript = s.transcript ∧
    (onerror s err).1.isListening = false ∧
    (onerror s err).2
      = [SpeechAction.toastError "Speech recognition failed. Please try again."] := by
  refine ⟨?_, ?_, rfl, rfl⟩
  · induction errs generalizing s with
    | nil => rfl
    | cons e rest ih =>
        simp [runEngine, handleEvent, onerror, countRetryActions_append,
              countRetryActions, ih]
  · induction errs generalizing s with
    | nil => rfl
    | cons e rest ih =>
        simpa [runEngine, handleEvent, onerror] using ih { s with isListening := false }

/-- Claim C2 counterexample: two final results, "hello" then "world"
(the second event carrying both results with `resultIndex = 1`), leave
the exposed transcript at "world" — the latest result alone — while the
claimed concatenation-in-arrival-order semantics yields "helloworld". -/
theorem transcript_not_concatenation :
    (runResults ⟨"", true, true, true⟩
        [⟨0, [⟨["hello"], true⟩]⟩,
         ⟨1, [⟨["hello"], true⟩, ⟨["world"], true⟩]⟩]).transcript = "world" ∧
    specTranscript
        [⟨0, [⟨["hello"], true⟩]⟩,
         ⟨1, [⟨["hello"], true⟩, ⟨["world"], true⟩]⟩] = "helloworld" ∧
    ("world" : String) ≠ "helloworld" := by
  refine ⟨rfl, rfl, by decide⟩

/-- Claim C2 (amended): after any nonempty sequence of result events since
the last reset, the exposed transcript equals the text of the most recent
event's result at its `resultIndex` (alternative 0) alone; each arriving
result overwrites the entire previous transcript, and earlier finalised
results are discarded rather than concatenated. -/
theorem transcript_is_last_result (s : SpeechState) (es : List ResultEvent)
    (e : ResultEvent) :
    (runResults s (es ++ [e])).transcript = extractText e := by
  induction es generalizing s with
  | nil => rfl
  | cons x rest ih => simpa [runResults] using ih (onresult s x).1

/-- Claim C7: the transcript is cleared only by an explicit
`resetTranscript()` call, which sets it to the empty string and leaves
`isListening` unchanged; `stopListening()`, a recognition error and the
engine's end-of-session handler all leave the transcript unchanged. -/
theorem transcript_only_reset_clears (s : SpeechState) (err : String) :
    (resetTranscript s).1.transcript = "" ∧
    (resetTranscript s).1.isListening = s.isListening ∧
    (stopListening s).1.transcript = s.transcript ∧
    (onerror s err).1.transcript = s.transcript ∧
    (onend s).1.transcript = s.transcript := by
  refine ⟨rfl, rfl, ?_, rfl, rfl⟩
  unfold stopListening
  split <;> rfl

/-- Claim C3 (code bug witnessed on the model): when `stopCamera` is called
while the inter-tick `setTimeout` is pending (after a tick ran, before its
animation frame was requested), the cancellation misses: the timeout's id
was never stored, `cancelAnimationFrame` cancels an already-fired handle,
so the timeout fires, requests a new animation frame, and `processFrame`
runs again after `stopCamera` returned — and the loop has a pending timer
again afterwards. -/
theorem tick_runs_after_stop :
    (runLoop loopInit
      [LoopEvent.rafFires, LoopEvent.stopCameraCall,
       LoopEvent.timeoutFires, LoopEvent.rafFires]).ticksAfterStop = 1 ∧
    (runLoop loopInit
      [LoopEvent.rafFires, LoopEvent.stopCameraCall,
       LoopEvent.timeoutFires, LoopEvent.rafFires]).timeoutPending = true := by
  decide

/-- `warningTimes` distributes over appended emission lists. -/
theorem warningTimes_append (l1 l2 : List (Nat × FaceEmission)) :
    warningTimes (l1 ++ l2) = warningTimes l1 ++ warningTimes l2 := by
  simp [warningTimes, List.filter_append]

/-- `warningTimes` of a cons: the head's timestamp is kept exactly when it
reports multiple faces. -/
theorem warningTimes_cons (t : Nat) (e : FaceEmission) (l : List (Nat × FaceEmission)) :
    warningTimes ((t, e) :: l) = (if e.multiple then [t] else []) ++ warningTimes l := by
  cases hm : e.multiple <;> simp [warningTimes, hm]

/-- Claim C4 counterexample: two ticks 200 ms apart, each observing two
faces, emit the multi-face observation to the caller twice inside one 3 s
window — the emissions are not debounced. -/
theorem warning_not_debounced :
    debouncedB 3000 (warningTimes
      (runFace ⟨0, false⟩ [(0, Detection.ok 2), (200, Detection.ok 2)]).2) = false := by
  decide

/-- Claim C4 (amended): `multipleFacesDetected` becomes true on any (in
particular the first) successful tick observing more than one face, that
tick emits exactly one observation marked multiple, and over any tick
sequence the number of multi-face emissions equals the number of
successful multi-face ticks — there is no debounce window. -/
theorem multiface_flag_no_debounce (s s' : FaceState) (c : Nat) (h : 1 < c)
    (ticks : List (Nat × Detection)) :
    (faceTick s (Detection.ok c)).1.multipleFacesDetected = true ∧
    (faceTick s (Detection.ok c)).2 = [⟨c, true⟩] ∧
    (warningTimes (runFace s' ticks).2).length = (ticks.filter isMultiTick).length := by
  refine ⟨by simp [faceTick, h], by simp [faceTick, h], ?_⟩
  induction ticks generalizing s' with
  | nil => rfl
  | cons td rest ih =>
      obtain ⟨t, d⟩ := td
      cases d with
      | ok k =>
          cases hk : decide (1 < k) <;>
            simp [runFace, faceTick, warningTimes_cons, isMultiTick, hk, ih]
      | fail =>
          simpa [runFace, faceTick, warningTimes_append, warningTimes,
                 isMultiTick] using ih s'

/-- Claim C4 witness: instantiation at two observed faces. -/
theorem multiface_flag_no_debounce_w :
    1 < 2 ∧ (faceTick ⟨0, false⟩ (Detection.ok 2)).1.multipleFacesDetected = true :=
  ⟨by decide, (multiface_flag_no_debounce ⟨0, false⟩ ⟨0, false⟩ 2 (by decide) []).1⟩

/-- Claim C5 counterexample: a tick observing two faces followed by a tick
whose detection fails leaves the exposed `faceCount` at 2 — not 0 — and
the failing tick emits no observation at all (only the first tick's
emission exists). -/
theorem failed_tick_keeps_count :
    (runFace ⟨0, false⟩ [(0, Detection.ok 2), (200, Detection.fail)]).1.faceCount ≠ 0 ∧
    (runFace ⟨0, false⟩ [(0, Detection.ok 2), (200, Detection.fail)]).1.faceCount = 2 ∧
    (runFace ⟨0, false⟩ [(0, Detection.ok 2), (200, Detection.fail)]).2
      = [(0, ⟨2, true⟩)] := by
  decide

/-- Claim C5 (amended): a failing detection tick is absorbed locally (the
error is caught; the tick is a no-op): it emits no observation and leaves
`faceCount` and `multipleFacesDetected` at their previous values rather
than reporting 0; a later successful tick's result is independent of the
state the failure left behind. -/
theorem detection_failure_absorbed (s s' : FaceState) (c : Nat) :
    faceTick s Detection.fail = (s, []) ∧
    faceTick s (Detection.ok c) = faceTick s' (Detection.ok c) :=
  ⟨rfl, rfl⟩

/-- Claim C6 counterexample: from an active-PiP state, an external PiP exit
by the host leaves `isPiPActive` true — the exposed state is not
reconciled to false. -/
theorem external_exit_not_reconciled :
    (externalPiPExit pipActiveState).isPiPActive = true := rfl

/-- Claim C6 (amended): `useCamera` registers no listener for external PiP
exits, so an external exit leaves `isPiPActive` exactly as it was (in
particular true), and once out of sync a subsequent `togglePiP` call is a
no-op: `isPiPActive` is still true, so the enter branch is skipped, and no
PiP element exists, so the exit branch is skipped. -/
theorem external_exit_unobserved (s : CameraState) (h : s.isPiPActive = true) :
    (externalPiPExit s).isPiPActive = s.isPiPActive ∧
    togglePiP (externalPiPExit s) = externalPiPExit s := by
  refine ⟨rfl, ?_⟩
  simp [togglePiP, externalPiPExit, h]

/-- Claim C6 witness: instantiation at the active-PiP state. -/
theorem external_exit_unobserved_w :
    pipActiveState.isPiPActive = true ∧
    togglePiP (externalPiPExit pipActiveState) = externalPiPExit pipActiveState :=
  ⟨rfl, (external_exit_unobserved pipActiveState rfl).2⟩

/-- Appending freshly stopped tracks preserves all-stopped. -/
theorem all_id_append_trues (l ts : List Bool) (h : l.all id = true) :
    (l ++ ts.map (fun _ => true)).all id = true := by
  simp only [List.all_append, List.all_map, h, Bool.true_and]
  simp [List.all_eq_true]

/-- Claim C8: `stopCamera` is idempotent and safe from any state, including
states with no acquired stream: after any call the session view is the
fixed stopped configuration (no stream handle, not streaming, no PiP
element, PiP flag false, zero faces, no stored animation-frame handle),
and every track ever held is stopped (assuming all previously released
tracks were stopped, which `stopCamera` — the only releaser — always
ensures). -/
theorem stopCamera_idempotent_safe (s : CameraState) (h : s.released.all id = true) :
    stopCamera (stopCamera s) = stopCamera s ∧
    sessionView (stopCamera s) = (none, false, false, false, 0, false, none) ∧
    (stopCamera s).released.all id = true := by
  obtain ⟨st, rel, vp, vs, cp, ctx, vw, vh, cw, ch, vr, fp, istr, hp, pe, pa, fc, mf⟩ := s
  refine ⟨?_, ?_, ?_⟩
  · cases st <;> cases vp <;> cases pe <;> rfl
  · cases st <;> cases vp <;> cases pe <;> rfl
  · cases st <;> cases vp <;> cases pe
    all_goals first
      | exact h
      | exact all_id_append_trues rel _ h

/-- Claim C8 witness: instantiation at an acquired two-track state. -/
theorem stopCamera_idempotent_safe_w :
    acquiredState.released.all id = true ∧
    stopCamera (stopCamera acquiredState) = stopCamera acquiredState :=
  ⟨by decide, (stopCamera_idempotent_safe acquiredState (by decide)).1⟩

/-- Claim C9: `capturePhoto` returns `null` and leaves the state untouched
whenever the camera is not streaming or the video or canvas reference is
unavailable; the embedded function is total, so no such call throws. -/
theorem capturePhoto_null_safe (s : CameraState)
    (h : s.isStreaming = false ∨ s.videoPresent = false ∨ s.canvasPresent = false) :
    capturePhoto s = (none, s) := by
  unfold capturePhoto
  rcases h with h | h | h <;> simp [h]

/-- Claim C9 witness: instantiation at the idle (non-streaming) state. -/
theorem capturePhoto_null_safe_w :
    (idleState.isStreaming = false ∨ idleState.videoPresent = false ∨
      idleState.canvasPresent = false) ∧
    capturePhoto idleState = (none, idleState) :=
  ⟨Or.inl rfl, capturePhoto_null_safe idleState (Or.inl rfl)⟩

/-- Claim C10: every `stopCamera` call resets the face readouts:
afterwards `faceCount = 0` and `multipleFacesDetected = false`, from any
prior state. -/
theorem stopCamera_resets_face_readouts (s : CameraState) :
    (stopCamera s).faceCount = 0 ∧ (stopCamera s).multipleFacesDetected = false :=
  ⟨rfl, rfl⟩

end LoanOne
